import Mathlib

/-!
Verification of the dispatch/forwarding/versioning core of the rasa-sdk
action endpoint (`rasa_sdk/endpoint.py`, `create_app`: the `webhook`,
`actions`, `health` routes and the app-level `exception_handler`).

The webhook handler is embedded as a pure function from a request, a
configuration, an executor state and an environment (the external
collaborators: zlib decompression, JSON parsing, and the HTTP client used
for forwarding) to a result.  A result is either a produced HTTP response
or a propagated exception, paired with an `Effects` trace recording which
side effects (registry reload, registry lookup, handler invocation,
forwarding attempt) happened during the call.

Components of the repository that are only called from `endpoint.py` but
whose code is not part of the analysed slice (`ActionExecutor.run`,
`utils.check_version_compatibility`, the exception classes) are modelled
from the specification; their doc comments say so explicitly.
-/

namespace RasaSdk

/-- A JSON value, the shape of request and response bodies
(`action_call` in `webhook` is the parsed JSON body). -/
inductive Json where
  | null : Json
  | bool (b : Bool) : Json
  | num (n : Int) : Json
  | str (s : String) : Json
  | arr (elems : List Json) : Json
  | obj (fields : List (String × Json)) : Json

/-- `d.get(key)` on a Python dict parsed from JSON: first binding of the
key in an object, `none` otherwise. -/
def Json.get : Json → String → Option Json
  | .obj fields, key => fields.lookup key
  | _, _ => none

/-- An HTTP response as produced by `sanic.response.json(body, status)`. -/
structure HttpResponse where
  status : Nat
  body : Json

/-- The exceptions that can escape the `webhook` handler and reach the
app-level `exception_handler`. -/
inductive PyError where
  | incompatibleVersion (msg : String) : PyError
  | generic (msg : String) : PyError

/-- `str(exception)` on a propagated exception. -/
def PyError.msg : PyError → String
  | .incompatibleVersion m => m
  | .generic m => m

/-- Trace of the observable side effects of one request. -/
structure Effects where
  reloadCalled : Bool
  lookupCount : Nat
  handlerInvoked : Bool
  forwardAttempted : Bool
  forwardedPayload : Option (String × Json)
  dispatchedCall : Option Json

/-- The empty trace: nothing beyond body decoding happened. -/
def Effects.empty : Effects :=
  { reloadCalled := false, lookupCount := 0, handlerInvoked := false,
    forwardAttempted := false, forwardedPayload := none, dispatchedCall := none }

/-- What invoking a registered handler on a call can do: return a result,
raise `ActionExecutionRejection` with a message, or raise any other
exception (a bug in action logic). -/
inductive HandlerBehavior where
  | success (result : Json) : HandlerBehavior
  | reject (message : String) : HandlerBehavior
  | raiseErr (message : String) : HandlerBehavior

/-- A registered action handler, abstracted to its observable behaviour on
a given action call. -/
def Handler : Type := Json → HandlerBehavior

/-- The `ActionExecutor` state: the live registry (`executor.actions`,
name-to-handler map with unique names) and the registry contents the
loader collaborator would produce on the next `reload()`. -/
structure Executor where
  actions : List (String × Handler)
  freshActions : List (String × Handler)

/-- Modelled from the spec: `ActionExecutor.reload` re-runs the loader and
atomically swaps in the fresh complete set of entries. -/
def Executor.reload (ex : Executor) : Executor :=
  { ex with actions := ex.freshActions }

/-- Outcome of `executor.run(action_call)` as observed by `webhook`:
a result, an `ActionExecutionRejection`, an `ActionNotFoundException`
(both carrying `action_name` and `message`), a call with a missing or
empty name, or any other propagating exception. -/
inductive RunOutcome where
  | ok (result : Json) : RunOutcome
  | rejected (actionName : String) (message : String) : RunOutcome
  | notFound (actionName : String) (message : String) : RunOutcome
  | missingName : RunOutcome
  | failure (message : String) : RunOutcome

/-- Outcome of `executor.run` together with what it touched. -/
structure RunTrace where
  outcome : RunOutcome
  lookupCount : Nat
  handlerInvoked : Bool

/-- Modelled from the spec: message of the `ActionNotFoundException`
raised when no registry entry matches the name. -/
def notFoundMessage (name : String) : String :=
  "No registered action found for name " ++ name ++ "."

/-- Modelled from the spec: `ActionExecutor.run` (not part of the analysed
slice).  Per spec section 4.3: validate the name (`next_action` field, per
section 6); a missing or empty name is a caller error settled before any
registry lookup; look the name up in the registry, raising
`ActionNotFoundException` when absent; invoke the handler, surfacing an
explicit refusal as `ActionExecutionRejection` and letting any other
failure propagate. -/
def Executor.run (ex : Executor) (call : Json) : RunTrace :=
  match call.get "next_action" with
  | some (Json.str name) =>
    if name = "" then
      { outcome := .missingName, lookupCount := 0, handlerInvoked := false }
    else
      match ex.actions.lookup name with
      | none =>
        { outcome := .notFound name (notFoundMessage name),
          lookupCount := 1, handlerInvoked := false }
      | some h =>
        match h call with
        | .success r =>
          { outcome := .ok r, lookupCount := 1, handlerInvoked := true }
        | .reject m =>
          { outcome := .rejected name m, lookupCount := 1, handlerInvoked := true }
        | .raiseErr m =>
          { outcome := .failure m, lookupCount := 1, handlerInvoked := true }
  | _ =>
    { outcome := .missingName, lookupCount := 0, handlerInvoked := false }

/-- Characters before the first dot. -/
def beforeFirstDot : List Char → List Char
  | [] => []
  | c :: cs => if c = '.' then [] else c :: beforeFirstDot cs

/-- Major component of a semantic version string: everything before the
first dot. -/
def majorComponent (v : String) : String :=
  String.mk (beforeFirstDot v.toList)

/-- Modelled from the spec: `utils.check_version_compatibility` (not part
of the analysed slice).  Per spec section 4.2: an absent caller version is
compatible; otherwise the versions are compatible exactly when their major
components match. -/
def versionCompatible (callerVersion : Option String) (serverVersion : String) : Bool :=
  match callerVersion with
  | none => true
  | some v => majorComponent v = majorComponent serverVersion

/-- Modelled from the spec: message of the `IncompatibleVersionError`
raised on a major-version mismatch. -/
def incompatibilityMessage (callerVersion serverVersion : String) : String :=
  "Version " ++ callerVersion ++ " is incompatible with server version "
    ++ serverVersion ++ "."

/-- `action_call.get("version")` read as the optional caller version
string; a non-string value is treated as absent (legacy caller). -/
def getVersion (call : Json) : Option String :=
  match call.get "version" with
  | some (Json.str v) => some v
  | _ => none

/-- Server configuration: the `create_app` parameters relevant to
dispatch, plus the server's own protocol version. -/
structure Config where
  autoReload : Bool
  enableForwarding : Bool
  forwardIp : String
  forwardPort : Nat
  serverVersion : String

/-- What `requests.post(forward_url, json=action_call)` can produce: an
HTTP response from the target (any status), or a transport-level
`requests.RequestException` (unreachable target, timeout, ...). -/
inductive ForwardResult where
  | response (status : Nat) (body : Json) : ForwardResult
  | connectionError (msg : String) : ForwardResult

/-- External collaborators of the webhook handler: `zlib.decompress`,
`json.loads` (both fallible; `json.loads` returns `none` for the JSON
literal null, mirroring Python's `None`), and the HTTP client used for
forwarding. -/
structure Env where
  decompress : List Nat → Except String (List Nat)
  parseJson : List Nat → Except String (Option Json)
  post : String → Json → ForwardResult

/-- The inbound HTTP request: its `Content-Encoding` header, its raw body
bytes, and what Sanic's `request.json` yields for it (`none` mirrors
Python's `None` for an empty or null body). -/
structure RasaRequest where
  contentEncoding : Option String
  rawBody : List Nat
  json : Option Json

/-- Lines 103-109 of `endpoint.py`: when the `Content-Encoding` header
equals "deflate", decompress the body with zlib and parse the result as
JSON (either step failing propagates its exception); otherwise take
`request.json` directly. -/
def decodeActionCall (env : Env) (req : RasaRequest) :
    Except PyError (Option Json) :=
  if req.contentEncoding = some "deflate" then
    match env.decompress req.rawBody with
    | .error m => .error (.generic m)
    | .ok data =>
      match env.parseJson data with
      | .error m => .error (.generic m)
      | .ok j => .ok j
  else
    .ok req.json

/-- Line 130 of `endpoint.py`: the relay destination built from the
forwarding target configuration. -/
def forwardUrl (cfg : Config) : String :=
  "http://" ++ cfg.forwardIp ++ ":" ++ toString cfg.forwardPort ++ "/webhook"

/-- Line 111-112: response to an absent (`None`) parsed body. -/
def invalidBodyResponse : HttpResponse :=
  { status := 400, body := Json.obj [("error", Json.str "Invalid body request")] }

/-- Modelled from the spec: the client-error response to a call whose
name is missing or empty (spec sections 3 and 8; the code realising it is
not part of the analysed slice). -/
def missingNameResponse : HttpResponse :=
  { status := 400, body := Json.obj [("error", Json.str "Action call has no name")] }

/-- Line 124-125: response to an `ActionExecutionRejection`. -/
def rejectedResponse (actionName message : String) : HttpResponse :=
  { status := 400,
    body := Json.obj [("error", Json.str message),
                      ("action_name", Json.str actionName)] }

/-- Line 142-143: response to an `ActionNotFoundException` with
forwarding disabled. -/
def notFoundResponse (actionName message : String) : HttpResponse :=
  { status := 404,
    body := Json.obj [("error", Json.str message),
                      ("action_name", Json.str actionName)] }

/-- Line 138-139: response when the forwarding relay fails. -/
def forwardingFailedResponse (actionName : String) : HttpResponse :=
  { status := 504,
    body := Json.obj [("error", Json.str "Forwarding request failed"),
                      ("action_name", Json.str actionName)] }

/-- Lines 126-145 of `endpoint.py`: handling of an
`ActionNotFoundException`.  With forwarding enabled, POST the unmodified
action call to the target's `/webhook`; `raise_for_status()` turns a
4xx/5xx target status into a caught `RequestException`, as does a
transport failure, both answered with the forwarding-failure response;
otherwise the target's JSON body becomes the local result.  With
forwarding disabled, answer with the not-found response. -/
def handleNotFound (env : Env) (cfg : Config) (call : Json)
    (actionName message : String) : HttpResponse × Bool × Option (String × Json) :=
  if cfg.enableForwarding then
    match env.post (forwardUrl cfg) call with
    | .response st body =>
      if 400 ≤ st ∧ st < 600 then
        (forwardingFailedResponse actionName, true, some (forwardUrl cfg, call))
      else
        ({ status := 200, body := body }, true, some (forwardUrl cfg, call))
    | .connectionError _ =>
      (forwardingFailedResponse actionName, true, some (forwardUrl cfg, call))
  else
    (notFoundResponse actionName message, false, none)

/-- Lines 119-145 of `endpoint.py`: run the executor on the decoded call
and classify the outcome.  `reloaded` records whether the auto-reload
step already ran. -/
def webhookRun (env : Env) (cfg : Config) (ex : Executor) (reloaded : Bool)
    (call : Json) : Except PyError HttpResponse × Effects :=
  let t := ex.run call
  let base : Effects :=
    { reloadCalled := reloaded, lookupCount := t.lookupCount,
      handlerInvoked := t.handlerInvoked, forwardAttempted := false,
      forwardedPayload := none, dispatchedCall := some call }
  match t.outcome with
  | .ok result => (.ok { status := 200, body := result }, base)
  | .rejected name message => (.ok (rejectedResponse name message), base)
  | .notFound name message =>
    let r := handleNotFound env cfg call name message
    (.ok r.1, { base with forwardAttempted := r.2.1, forwardedPayload := r.2.2 })
  | .missingName => (.ok missingNameResponse, base)
  | .failure message => (.error (.generic message), base)

/-- Lines 116-117 of `endpoint.py`: the registry state dispatch runs
against — the reloaded registry when auto-reload is enabled, the current
one otherwise. -/
def effectiveExecutor (cfg : Config) (ex : Executor) : Executor :=
  if cfg.autoReload then ex.reload else ex

/-- Lines 114-145 of `endpoint.py`, after the body was decoded to a
non-`None` call: version-compatibility gate (raising
`IncompatibleVersionError` on a major mismatch, before anything else),
then the auto-reload step, then dispatch. -/
def webhookAfterDecode (env : Env) (cfg : Config) (ex : Executor)
    (call : Json) : Except PyError HttpResponse × Effects :=
  if versionCompatible (getVersion call) cfg.serverVersion then
    webhookRun env cfg (effectiveExecutor cfg ex) cfg.autoReload call
  else
    (.error (.incompatibleVersion
      (incompatibilityMessage ((getVersion call).getD "") cfg.serverVersion)),
     Effects.empty)

/-- Lines 100-145 of `endpoint.py`: the `webhook` route handler.  The
first component is the produced response, or the exception that escapes
the handler; the second is the side-effect trace. -/
def webhook (env : Env) (cfg : Config) (ex : Executor) (req : RasaRequest) :
    Except PyError HttpResponse × Effects :=
  match decodeActionCall env req with
  | .error e => (.error e, Effects.empty)
  | .ok none => (.ok invalidBodyResponse, Effects.empty)
  | .ok (some call) => webhookAfterDecode env cfg ex call

/-- L147-154 of `endpoint.py`: the `/actions` route handler, with its
side-effect trace. -/
def actionsRoute (cfg : Config) (ex : Executor) : HttpResponse × Effects :=
  let ex' := if cfg.autoReload then ex.reload else ex
  ({ status := 200,
     body := Json.arr (ex'.actions.map
       (fun p => Json.obj [("name", Json.str p.1)])) },
   { Effects.empty with reloadCalled := cfg.autoReload })

/-- Lines 94-98 of `endpoint.py`: the `/health` route handler. -/
def healthRoute : HttpResponse :=
  { status := 200, body := Json.obj [("status", Json.str "ok")] }

/-- Lines 156-163 of `endpoint.py`: the app-level exception handler,
turning any exception that escaped a route handler into a generic
server-error response carrying the error message. -/
def exceptionHandlerResponse (req : RasaRequest) (e : PyError) : HttpResponse :=
  { status := 500,
    body := Json.obj [("error", Json.str e.msg),
                      ("request_body", (req.json).getD Json.null)] }

/-- A full webhook request through the app: the route handler's response,
or the app-level exception handler's response when an exception escaped. -/
def handleWebhookRequest (env : Env) (cfg : Config) (ex : Executor)
    (req : RasaRequest) : HttpResponse × Effects :=
  let r := webhook env cfg ex req
  match r.1 with
  | .ok resp => (resp, r.2)
  | .error e => (exceptionHandlerResponse req e, r.2)

/-! ## Concrete fixtures used by the witnesses -/

/-- A successful action result: empty events and responses. -/
def greetResult : Json :=
  Json.obj [("events", Json.arr []), ("responses", Json.arr [])]

/-- A handler that always succeeds with `greetResult`. -/
def greetHandler : Handler := fun _ => .success greetResult

/-- A handler that always raises `ActionExecutionRejection`. -/
def rejectHandler : Handler := fun _ => .reject "required slot missing"

/-- A handler that always raises a generic exception. -/
def failHandler : Handler := fun _ => .raiseErr "boom"

/-- A sample executor: three registered actions, with a distinct registry
waiting to be swapped in on reload. -/
def sampleExec : Executor :=
  { actions := [("action_greet", greetHandler), ("action_reject", rejectHandler),
                ("action_fail", failHandler)],
    freshActions := [("action_new", greetHandler)] }

/-- An action-call payload for a given action name. -/
def callFor (name : String) : Json := Json.obj [("next_action", Json.str name)]

/-- An uncompressed request whose parsed body is `j`. -/
def reqWithJson (j : Option Json) : RasaRequest :=
  { contentEncoding := none, rawBody := [], json := j }

/-- An environment whose forwarding target is unreachable. -/
def envDown : Env :=
  { decompress := fun b => .ok b, parseJson := fun _ => .ok none,
    post := fun _ _ => .connectionError "connection refused" }

/-- The structured result the forwarding target replies with. -/
def remoteResult : Json :=
  Json.obj [("events", Json.arr []), ("responses", Json.arr [Json.str "remote"])]

/-- An environment whose forwarding target replies with status `st` and
body `remoteResult`. -/
def envUp (st : Nat) : Env :=
  { decompress := fun b => .ok b, parseJson := fun _ => .ok none,
    post := fun _ _ => .response st remoteResult }

/-- Baseline configuration: no auto-reload, no forwarding, server
version 3.4.2. -/
def baseCfg : Config :=
  { autoReload := false, enableForwarding := false, forwardIp := "0.0.0.0",
    forwardPort := 5056, serverVersion := "3.4.2" }

/-- Baseline configuration with forwarding enabled and a target
configured. -/
def fwdCfg : Config := { baseCfg with enableForwarding := true }

/-- Baseline configuration with auto-reload enabled. -/
def autoCfg : Config := { baseCfg with autoReload := true }

/-- An environment for exercising the deflate path: decompression maps
each byte to its successor, and the parser recognises exactly the
decompressed form of `deflateReq`'s body. -/
def deflateEnv : Env :=
  { decompress := fun b => .ok (b.map (fun n => n + 1)),
    parseJson := fun data =>
      if data = [1, 2] then .ok (some (callFor "action_greet")) else .ok none,
    post := fun _ _ => .connectionError "connection refused" }

/-- A deflate-encoded request whose decompressed body parses to the
`action_greet` call. -/
def deflateReq : RasaRequest :=
  { contentEncoding := some "deflate", rawBody := [0, 1], json := none }

/-- A call naming a registered action but declaring an incompatible
protocol version. -/
def badVersionCall : Json :=
  Json.obj [("next_action", Json.str "action_greet"),
            ("version", Json.str "9999.0.0")]

/-- A call with no name field and an incompatible protocol version. -/
def noNameBadVersionCall : Json :=
  Json.obj [("version", Json.str "9999.0.0")]

/-! ## Helper lemmas -/

/-- Dispatch preserves the reload flag and records the dispatched call,
whatever the run outcome. -/
theorem webhookRun_effects (env : Env) (cfg : Config) (ex : Executor)
    (r : Bool) (call : Json) :
    (webhookRun env cfg ex r call).2.reloadCalled = r ∧
    (webhookRun env cfg ex r call).2.dispatchedCall = some call := by
  unfold webhookRun
  cases h : (ex.run call).outcome <;> simp [h]

/-! ## Claims -/

/-- C1: for every action call whose handler signals rejection
(`ActionExecutionRejection`), the webhook returns a client-error response
(status 400) with body `\x7berror: message, action_name\x7d`, and never
attempts forwarding to the secondary server — for every configuration,
including those with forwarding enabled and a target configured. -/
theorem rejected_call_client_error_never_forwarded
    (env : Env) (cfg : Config) (ex : Executor) (req : RasaRequest)
    (call : Json) (name message : String)
    (hdec : decodeActionCall env req = .ok (some call))
    (hver : versionCompatible (getVersion call) cfg.serverVersion = true)
    (hrun : ((effectiveExecutor cfg ex).run call).outcome = .rejected name message) :
    (webhook env cfg ex req).1 = .ok (rejectedResponse name message) ∧
    (rejectedResponse name message).status = 400 ∧
    (rejectedResponse name message).body =
      Json.obj [("error", Json.str message), ("action_name", Json.str name)] ∧
    (webhook env cfg ex req).2.forwardAttempted = false ∧
    (webhook env cfg ex req).2.forwardedPayload = none := by
  simp only [webhook, hdec, webhookAfterDecode, hver, if_true, webhookRun, hrun]
  exact ⟨trivial, rfl, rfl, trivial, trivial⟩

/-- Witness for C1 at a concrete input: forwarding enabled, target
configured, handler `action_reject` rejects. -/
theorem rejected_call_client_error_never_forwarded_witness :
    (webhook envDown fwdCfg sampleExec
        (reqWithJson (some (callFor "action_reject")))).1 =
      .ok (rejectedResponse "action_reject" "required slot missing") ∧
    (rejectedResponse "action_reject" "required slot missing").status = 400 ∧
    (rejectedResponse "action_reject" "required slot missing").body =
      Json.obj [("error", Json.str "required slot missing"),
                ("action_name", Json.str "action_reject")] ∧
    (webhook envDown fwdCfg sampleExec
        (reqWithJson (some (callFor "action_reject")))).2.forwardAttempted = false ∧
    (webhook envDown fwdCfg sampleExec
        (reqWithJson (some (callFor "action_reject")))).2.forwardedPayload = none :=
  rejected_call_client_error_never_forwarded envDown fwdCfg sampleExec
    (reqWithJson (some (callFor "action_reject"))) (callFor "action_reject")
    "action_reject" "required slot missing" rfl rfl rfl

/-- C2: for every action call raising `ActionNotFoundException` while
forwarding is enabled and the target replies (its status passing
`raise_for_status`), the webhook relays the original, unmodified action
call to the target's `/webhook` endpoint and returns the target's
structured result verbatim, as the local result. -/
theorem not_found_forwarded_verbatim
    (env : Env) (cfg : Config) (ex : Executor) (req : RasaRequest)
    (call : Json) (name message : String) (st : Nat) (body : Json)
    (hdec : decodeActionCall env req = .ok (some call))
    (hver : versionCompatible (getVersion call) cfg.serverVersion = true)
    (hrun : ((effectiveExecutor cfg ex).run call).outcome = .notFound name message)
    (hfwd : cfg.enableForwarding = true)
    (hpost : env.post (forwardUrl cfg) call = .response st body)
    (hok : ¬(400 ≤ st ∧ st < 600)) :
    (webhook env cfg ex req).1 = .ok { status := 200, body := body } ∧
    (webhook env cfg ex req).2.forwardedPayload = some (forwardUrl cfg, call) ∧
    (webhook env cfg ex req).2.forwardAttempted = true := by
  simp only [webhook, hdec, webhookAfterDecode, hver, if_true, webhookRun, hrun,
    handleNotFound, hfwd, hpost]
  rw [if_neg hok]
  simp

/-- Witness for C2 at a concrete input: unregistered action, forwarding
enabled, target replies with status 200 and `remoteResult`. -/
theorem not_found_forwarded_verbatim_witness :
    (webhook (envUp 200) fwdCfg sampleExec
        (reqWithJson (some (callFor "action_missing")))).1 =
      .ok { status := 200, body := remoteResult } ∧
    (webhook (envUp 200) fwdCfg sampleExec
        (reqWithJson (some (callFor "action_missing")))).2.forwardedPayload =
      some (forwardUrl fwdCfg, callFor "action_missing") ∧
    (webhook (envUp 200) fwdCfg sampleExec
        (reqWithJson (some (callFor "action_missing")))).2.forwardAttempted = true :=
  not_found_forwarded_verbatim (envUp 200) fwdCfg sampleExec
    (reqWithJson (some (callFor "action_missing"))) (callFor "action_missing")
    "action_missing" (notFoundMessage "action_missing") 200 remoteResult
    rfl rfl rfl rfl rfl (by decide)

/-- C3: for every action call raising `ActionNotFoundException` while
forwarding is enabled, if the relay itself fails at the transport level,
the webhook returns the gateway-error response: status 504, body
`\x7berror: "Forwarding request failed", action_name\x7d`, distinct in
status from both the not-found and the rejected responses. -/
theorem forwarding_failure_gateway_error
    (env : Env) (cfg : Config) (ex : Executor) (req : RasaRequest)
    (call : Json) (name message emsg : String)
    (hdec : decodeActionCall env req = .ok (some call))
    (hver : versionCompatible (getVersion call) cfg.serverVersion = true)
    (hrun : ((effectiveExecutor cfg ex).run call).outcome = .notFound name message)
    (hfwd : cfg.enableForwarding = true)
    (hpost : env.post (forwardUrl cfg) call = .connectionError emsg) :
    (webhook env cfg ex req).1 = .ok (forwardingFailedResponse name) ∧
    (forwardingFailedResponse name).status = 504 ∧
    (forwardingFailedResponse name).body =
      Json.obj [("error", Json.str "Forwarding request failed"),
                ("action_name", Json.str name)] ∧
    (forwardingFailedResponse name).status ≠ (notFoundResponse name message).status ∧
    (forwardingFailedResponse name).status ≠ (rejectedResponse name message).status := by
  simp only [webhook, hdec, webhookAfterDecode, hver, if_true, webhookRun, hrun,
    handleNotFound, hfwd, hpost]
  refine ⟨?_, rfl, rfl, ?_, ?_⟩ <;>
    simp [forwardingFailedResponse, notFoundResponse, rejectedResponse]

/-- Witness for C3 at a concrete input: unregistered action, forwarding
enabled, target unreachable. -/
theorem forwarding_failure_gateway_error_witness :
    (webhook envDown fwdCfg sampleExec
        (reqWithJson (some (callFor "action_missing")))).1 =
      .ok (forwardingFailedResponse "action_missing") ∧
    (forwardingFailedResponse "action_missing").status = 504 ∧
    (forwardingFailedResponse "action_missing").body =
      Json.obj [("error", Json.str "Forwarding request failed"),
                ("action_name", Json.str "action_missing")] ∧
    (forwardingFailedResponse "action_missing").status ≠
      (notFoundResponse "action_missing" (notFoundMessage "action_missing")).status ∧
    (forwardingFailedResponse "action_missing").status ≠
      (rejectedResponse "action_missing" (notFoundMessage "action_missing")).status :=
  forwarding_failure_gateway_error envDown fwdCfg sampleExec
    (reqWithJson (some (callFor "action_missing"))) (callFor "action_missing")
    "action_missing" (notFoundMessage "action_missing") "connection refused"
    rfl rfl rfl rfl rfl

/-- C4: for every action call raising `ActionNotFoundException` while
forwarding is disabled, the webhook returns the not-found response:
status 404, body `\x7berror: message, action_name\x7d`, with no
forwarding attempt. -/
theorem not_found_no_forwarding_404
    (env : Env) (cfg : Config) (ex : Executor) (req : RasaRequest)
    (call : Json) (name message : String)
    (hdec : decodeActionCall env req = .ok (some call))
    (hver : versionCompatible (getVersion call) cfg.serverVersion = true)
    (hrun : ((effectiveExecutor cfg ex).run call).outcome = .notFound name message)
    (hfwd : cfg.enableForwarding = false) :
    (webhook env cfg ex req).1 = .ok (notFoundResponse name message) ∧
    (notFoundResponse name message).status = 404 ∧
    (notFoundResponse name message).body =
      Json.obj [("error", Json.str message), ("action_name", Json.str name)] ∧
    (webhook env cfg ex req).2.forwardAttempted = false := by
  simp only [webhook, hdec, webhookAfterDecode, hver, if_true, webhookRun, hrun,
    handleNotFound, hfwd]
  simp [notFoundResponse]

/-- Witness for C4 at a concrete input: unregistered action, forwarding
disabled. -/
theorem not_found_no_forwarding_404_witness :
    (webhook envDown baseCfg sampleExec
        (reqWithJson (some (callFor "action_missing")))).1 =
      .ok (notFoundResponse "action_missing" (notFoundMessage "action_missing")) ∧
    (notFoundResponse "action_missing" (notFoundMessage "action_missing")).status = 404 ∧
    (notFoundResponse "action_missing" (notFoundMessage "action_missing")).body =
      Json.obj [("error", Json.str (notFoundMessage "action_missing")),
                ("action_name", Json.str "action_missing")] ∧
    (webhook envDown baseCfg sampleExec
        (reqWithJson (some (callFor "action_missing")))).2.forwardAttempted = false :=
  not_found_no_forwarding_404 envDown baseCfg sampleExec
    (reqWithJson (some (callFor "action_missing"))) (callFor "action_missing")
    "action_missing" (notFoundMessage "action_missing") rfl rfl rfl rfl

/-- C5: for every action call whose declared version string has a major
component differing from the server's supported version, the call fails
with an `IncompatibleVersionError` and an incompatibility response before
any registry lookup, registry reload, or handler invocation occurs. -/
theorem version_mismatch_fails_before_dispatch
    (env : Env) (cfg : Config) (ex : Executor) (req : RasaRequest)
    (call : Json) (v : String)
    (hdec : decodeActionCall env req = .ok (some call))
    (hv : getVersion call = some v)
    (hmaj : majorComponent v ≠ majorComponent cfg.serverVersion) :
    (webhook env cfg ex req).1 =
      .error (.incompatibleVersion (incompatibilityMessage v cfg.serverVersion)) ∧
    (webhook env cfg ex req).2.reloadCalled = false ∧
    (webhook env cfg ex req).2.lookupCount = 0 ∧
    (webhook env cfg ex req).2.handlerInvoked = false ∧
    (webhook env cfg ex req).2.dispatchedCall = none ∧
    (handleWebhookRequest env cfg ex req).1 =
      exceptionHandlerResponse req
        (.incompatibleVersion (incompatibilityMessage v cfg.serverVersion)) ∧
    (exceptionHandlerResponse req
        (.incompatibleVersion (incompatibilityMessage v cfg.serverVersion))).status = 500 := by
  have hvc : versionCompatible (some v) cfg.serverVersion = false := by
    simp [versionCompatible, hmaj]
  have h1 : webhook env cfg ex req =
      (.error (.incompatibleVersion (incompatibilityMessage v cfg.serverVersion)),
       Effects.empty) := by
    simp [webhook, hdec, webhookAfterDecode, hv, hvc]
  simp [h1, handleWebhookRequest, Effects.empty, exceptionHandlerResponse]

/-- Witness for C5 at a concrete input: caller version 9999.0.0 against
server version 3.4.2. -/
theorem version_mismatch_fails_before_dispatch_witness :
    (webhook envDown baseCfg sampleExec (reqWithJson (some badVersionCall))).1 =
      .error (.incompatibleVersion
        (incompatibilityMessage "9999.0.0" baseCfg.serverVersion)) ∧
    (webhook envDown baseCfg sampleExec (reqWithJson (some badVersionCall))).2.reloadCalled
      = false ∧
    (webhook envDown baseCfg sampleExec (reqWithJson (some badVersionCall))).2.lookupCount
      = 0 ∧
    (webhook envDown baseCfg sampleExec
        (reqWithJson (some badVersionCall))).2.handlerInvoked = false ∧
    (webhook envDown baseCfg sampleExec
        (reqWithJson (some badVersionCall))).2.dispatchedCall = none ∧
    (handleWebhookRequest envDown baseCfg sampleExec
        (reqWithJson (some badVersionCall))).1 =
      exceptionHandlerResponse (reqWithJson (some badVersionCall))
        (.incompatibleVersion
          (incompatibilityMessage "9999.0.0" baseCfg.serverVersion)) ∧
    (exceptionHandlerResponse (reqWithJson (some badVersionCall))
        (.incompatibleVersion
          (incompatibilityMessage "9999.0.0" baseCfg.serverVersion))).status = 500 :=
  version_mismatch_fails_before_dispatch envDown baseCfg sampleExec
    (reqWithJson (some badVersionCall)) badVersionCall "9999.0.0"
    rfl rfl (by decide)

/-- C6 counterexample: an inbound call whose name field is absent but
whose declared version has a mismatched major component is answered at
the app boundary with status 500 — a server-error incompatibility
response, not the claimed client-error 400 response. -/
theorem missing_name_client_error_cex :
    noNameBadVersionCall.get "next_action" = none ∧
    (handleWebhookRequest envDown baseCfg sampleExec
        (reqWithJson (some noNameBadVersionCall))).1.status = 500 ∧
    ¬ (handleWebhookRequest envDown baseCfg sampleExec
        (reqWithJson (some noNameBadVersionCall))).1.status = 400 := by
  have h : (handleWebhookRequest envDown baseCfg sampleExec
      (reqWithJson (some noNameBadVersionCall))).1.status = 500 := rfl
  refine ⟨rfl, h, ?_⟩
  rw [h]
  decide

/-- C6 (amended): for every inbound call that passes the
version-compatibility gate and whose name field is absent or empty, the
system returns a client-error response (status 400) without performing a
registry lookup and without invoking any handler. -/
theorem missing_name_client_error
    (env : Env) (cfg : Config) (ex : Executor) (req : RasaRequest) (call : Json)
    (hdec : decodeActionCall env req = .ok (some call))
    (hver : versionCompatible (getVersion call) cfg.serverVersion = true)
    (hname : call.get "next_action" = none ∨
             call.get "next_action" = some (Json.str "")) :
    (webhook env cfg ex req).1 = .ok missingNameResponse ∧
    missingNameResponse.status = 400 ∧
    (webhook env cfg ex req).2.lookupCount = 0 ∧
    (webhook env cfg ex req).2.handlerInvoked = false := by
  have hrun : (effectiveExecutor cfg ex).run call =
      { outcome := .missingName, lookupCount := 0, handlerInvoked := false } := by
    rcases hname with h | h <;> simp [Executor.run, h]
  simp [webhook, hdec, webhookAfterDecode, hver, webhookRun, hrun, missingNameResponse]

/-- Witness for C6 (amended) at a concrete input: a call without a name
field and with no declared version. -/
theorem missing_name_client_error_witness :
    (webhook envDown baseCfg sampleExec
        (reqWithJson (some (Json.obj [])))).1 = .ok missingNameResponse ∧
    missingNameResponse.status = 400 ∧
    (webhook envDown baseCfg sampleExec
        (reqWithJson (some (Json.obj [])))).2.lookupCount = 0 ∧
    (webhook envDown baseCfg sampleExec
        (reqWithJson (some (Json.obj [])))).2.handlerInvoked = false :=
  missing_name_client_error envDown baseCfg sampleExec
    (reqWithJson (some (Json.obj []))) (Json.obj []) rfl rfl (Or.inl rfl)

/-- C7: a request whose Content-Encoding header equals "deflate" has its
body decompressed with zlib and the decompressed bytes parsed as JSON,
and the decoded record is the action call that is dispatched; a request
without that header is parsed directly as JSON. -/
theorem deflate_decoded_then_parsed_then_dispatched
    (env : Env) (cfg : Config) (ex : Executor) (req : RasaRequest) :
    (req.contentEncoding = some "deflate" →
      ∀ data, env.decompress req.rawBody = .ok data →
        ∀ j, env.parseJson data = .ok j →
          decodeActionCall env req = .ok j) ∧
    (req.contentEncoding ≠ some "deflate" →
      decodeActionCall env req = .ok req.json) ∧
    (∀ call, decodeActionCall env req = .ok (some call) →
      versionCompatible (getVersion call) cfg.serverVersion = true →
      (webhook env cfg ex req).2.dispatchedCall = some call) := by
  refine ⟨?_, ?_, ?_⟩
  · intro h data hdata j hj
    simp [decodeActionCall, h, hdata, hj]
  · intro h
    simp [decodeActionCall, h]
  · intro call hdec hver
    simp only [webhook, hdec, webhookAfterDecode, hver, if_true]
    exact (webhookRun_effects env cfg (effectiveExecutor cfg ex) cfg.autoReload call).2

/-- Witness for C7 at a concrete input: a deflate request whose
decompressed bytes parse to the `action_greet` call, and a plain request
parsed directly. -/
theorem deflate_decoded_then_parsed_then_dispatched_witness :
    decodeActionCall deflateEnv deflateReq = .ok (some (callFor "action_greet")) ∧
    decodeActionCall deflateEnv (reqWithJson (some (callFor "action_greet"))) =
      .ok (some (callFor "action_greet")) ∧
    (webhook deflateEnv baseCfg sampleExec deflateReq).2.dispatchedCall =
      some (callFor "action_greet") := by
  refine ⟨?_, ?_, ?_⟩
  · exact (deflate_decoded_then_parsed_then_dispatched deflateEnv baseCfg sampleExec
      deflateReq).1 rfl [1, 2] rfl (some (callFor "action_greet")) rfl
  · exact (deflate_decoded_then_parsed_then_dispatched deflateEnv baseCfg sampleExec
      (reqWithJson (some (callFor "action_greet")))).2.1 (by decide)
  · exact (deflate_decoded_then_parsed_then_dispatched deflateEnv baseCfg sampleExec
      deflateReq).2.2 (callFor "action_greet")
      ((deflate_decoded_then_parsed_then_dispatched deflateEnv baseCfg sampleExec
        deflateReq).1 rfl [1, 2] rfl (some (callFor "action_greet")) rfl) rfl

/-- C8: a failure that is neither an `ActionExecutionRejection` nor an
`ActionNotFoundException` propagates uncaught out of the webhook handler
and is converted only at the app-level exception handler into a generic
server-error response (status 500) whose body carries the error
message. -/
theorem uncaught_failure_reaches_boundary
    (env : Env) (cfg : Config) (ex : Executor) (req : RasaRequest)
    (call : Json) (m : String)
    (hdec : decodeActionCall env req = .ok (some call))
    (hver : versionCompatible (getVersion call) cfg.serverVersion = true)
    (hrun : ((effectiveExecutor cfg ex).run call).outcome = .failure m) :
    (webhook env cfg ex req).1 = .error (.generic m) ∧
    (handleWebhookRequest env cfg ex req).1 = exceptionHandlerResponse req (.generic m) ∧
    (exceptionHandlerResponse req (.generic m)).status = 500 ∧
    (exceptionHandlerResponse req (.generic m)).body.get "error" =
      some (Json.str m) := by
  have h1 : (webhook env cfg ex req).1 = .error (.generic m) := by
    simp only [webhook, hdec, webhookAfterDecode, hver, if_true, webhookRun, hrun]
  refine ⟨h1, ?_, rfl, ?_⟩
  · simp [handleWebhookRequest, h1]
  · simp [exceptionHandlerResponse, Json.get, List.lookup, PyError.msg]

/-- Witness for C8 at a concrete input: the registered `action_fail`
handler raises a generic exception with message "boom". -/
theorem uncaught_failure_reaches_boundary_witness :
    (webhook envDown baseCfg sampleExec
        (reqWithJson (some (callFor "action_fail")))).1 = .error (.generic "boom") ∧
    (handleWebhookRequest envDown baseCfg sampleExec
        (reqWithJson (some (callFor "action_fail")))).1 =
      exceptionHandlerResponse (reqWithJson (some (callFor "action_fail")))
        (.generic "boom") ∧
    (exceptionHandlerResponse (reqWithJson (some (callFor "action_fail")))
        (.generic "boom")).status = 500 ∧
    (exceptionHandlerResponse (reqWithJson (some (callFor "action_fail")))
        (.generic "boom")).body.get "error" = some (Json.str "boom") :=
  uncaught_failure_reaches_boundary envDown baseCfg sampleExec
    (reqWithJson (some (callFor "action_fail"))) (callFor "action_fail") "boom"
    rfl rfl rfl

/-- C9 counterexample: with auto-reload enabled, a webhook request with a
valid body but a mismatched major version does not trigger a registry
reload — the version gate fires first. -/
theorem auto_reload_cex :
    autoCfg.autoReload = true ∧
    decodeActionCall envDown (reqWithJson (some badVersionCall)) =
      .ok (some badVersionCall) ∧
    (webhook envDown autoCfg sampleExec
        (reqWithJson (some badVersionCall))).2.reloadCalled = false :=
  ⟨rfl, rfl, rfl⟩

/-- C9 (amended): when auto-reload is enabled, every webhook request with
a valid body that passes the version-compatibility gate triggers a full
registry reload before the action is dispatched (dispatch runs against
the reloaded registry), and every request to the `/actions` listing
endpoint triggers a reload before the names are listed (the listing
reflects the freshly loaded registry); when auto-reload is disabled,
neither endpoint reloads the registry. -/
theorem auto_reload_behaviour
    (env : Env) (cfg : Config) (ex : Executor) (req : RasaRequest) (call : Json)
    (hdec : decodeActionCall env req = .ok (some call))
    (hver : versionCompatible (getVersion call) cfg.serverVersion = true) :
    (cfg.autoReload = true →
      (webhook env cfg ex req).2.reloadCalled = true ∧
      webhook env cfg ex req = webhookRun env cfg ex.reload true call ∧
      (actionsRoute cfg ex).2.reloadCalled = true ∧
      (actionsRoute cfg ex).1.body =
        Json.arr (ex.freshActions.map (fun p => Json.obj [("name", Json.str p.1)]))) ∧
    (cfg.autoReload = false →
      (webhook env cfg ex req).2.reloadCalled = false ∧
      (actionsRoute cfg ex).2.reloadCalled = false) := by
  constructor
  · intro h
    have hw : webhook env cfg ex req = webhookRun env cfg ex.reload true call := by
      simp [webhook, hdec, webhookAfterDecode, hver, effectiveExecutor, h]
    refine ⟨?_, hw, ?_, ?_⟩
    · rw [hw]
      exact (webhookRun_effects env cfg ex.reload true call).1
    · simp [actionsRoute, h]
    · simp [actionsRoute, h, Executor.reload]
  · intro h
    have hw : webhook env cfg ex req = webhookRun env cfg ex false call := by
      simp [webhook, hdec, webhookAfterDecode, hver, effectiveExecutor, h]
    constructor
    · rw [hw]
      exact (webhookRun_effects env cfg ex false call).1
    · simp [actionsRoute, h]

/-- Witness for C9 (amended) at concrete inputs: both endpoints with
auto-reload enabled and disabled. -/
theorem auto_reload_behaviour_witness :
    (webhook envDown autoCfg sampleExec
        (reqWithJson (some (callFor "action_new")))).2.reloadCalled = true ∧
    (actionsRoute autoCfg sampleExec).2.reloadCalled = true ∧
    (webhook envDown baseCfg sampleExec
        (reqWithJson (some (callFor "action_new")))).2.reloadCalled = false ∧
    (actionsRoute baseCfg sampleExec).2.reloadCalled = false := by
  refine ⟨?_, ?_, ?_, ?_⟩
  · exact ((auto_reload_behaviour envDown autoCfg sampleExec
      (reqWithJson (some (callFor "action_new"))) (callFor "action_new")
      rfl rfl).1 rfl).1
  · exact ((auto_reload_behaviour envDown autoCfg sampleExec
      (reqWithJson (some (callFor "action_new"))) (callFor "action_new")
      rfl rfl).1 rfl).2.2.1
  · exact ((auto_reload_behaviour envDown baseCfg sampleExec
      (reqWithJson (some (callFor "action_new"))) (callFor "action_new")
      rfl rfl).2 rfl).1
  · exact ((auto_reload_behaviour envDown baseCfg sampleExec
      (reqWithJson (some (callFor "action_new"))) (callFor "action_new")
      rfl rfl).2 rfl).2

/-- C10: for a forwarded call whose target is reachable, a 4xx or 5xx
target status yields the forwarding-failure response (status 504) rather
than a relay of the target's body, while a success status yields the
relayed body with local status 200 regardless of the target's exact
status. -/
theorem forward_status_classification
    (env : Env) (cfg : Config) (ex : Executor) (req : RasaRequest)
    (call : Json) (name message : String) (st : Nat) (body : Json)
    (hdec : decodeActionCall env req = .ok (some call))
    (hver : versionCompatible (getVersion call) cfg.serverVersion = true)
    (hrun : ((effectiveExecutor cfg ex).run call).outcome = .notFound name message)
    (hfwd : cfg.enableForwarding = true)
    (hpost : env.post (forwardUrl cfg) call = .response st body) :
    (400 ≤ st → st < 600 →
      (webhook env cfg ex req).1 = .ok (forwardingFailedResponse name)) ∧
    (st < 400 →
      (webhook env cfg ex req).1 = .ok { status := 200, body := body }) := by
  constructor
  · intro h1 h2
    simp only [webhook, hdec, webhookAfterDecode, hver, if_true, webhookRun, hrun,
      handleNotFound, hfwd, hpost]
    rw [if_pos ⟨h1, h2⟩]
  · intro h
    simp only [webhook, hdec, webhookAfterDecode, hver, if_true, webhookRun, hrun,
      handleNotFound, hfwd, hpost]
    rw [if_neg (by omega : ¬(400 ≤ st ∧ st < 600))]

/-- Witness for C10 at concrete inputs: target statuses 500 and 204. -/
theorem forward_status_classification_witness :
    (webhook (envUp 500) fwdCfg sampleExec
        (reqWithJson (some (callFor "action_missing")))).1 =
      .ok (forwardingFailedResponse "action_missing") ∧
    (webhook (envUp 204) fwdCfg sampleExec
        (reqWithJson (some (callFor "action_missing")))).1 =
      .ok { status := 200, body := remoteResult } := by
  constructor
  · exact (forward_status_classification (envUp 500) fwdCfg sampleExec
      (reqWithJson (some (callFor "action_missing"))) (callFor "action_missing")
      "action_missing" (notFoundMessage "action_missing") 500 remoteResult
      rfl rfl rfl rfl rfl).1 (by decide) (by decide)
  · exact (forward_status_classification (envUp 204) fwdCfg sampleExec
      (reqWithJson (some (callFor "action_missing"))) (callFor "action_missing")
      "action_missing" (notFoundMessage "action_missing") 204 remoteResult
      rfl rfl rfl rfl rfl).2 (by decide)

end RasaSdk
